import Mathlib

/-!
# BeePlayer `UrlPlayer` widget — verification development

Shallow embedding of the playback state machine of
`src/components/url-player.tsx` (the `UrlPlayer` React component) and of
the `Duration` display formatter. JavaScript numbers that the media
element reports (durations, current time, buffered range ends) are
modelled by `JSNum`: a finite rational, `NaN`, or a signed infinity,
with JavaScript's division and truthiness semantics made explicit.
Event handlers become pure functions from the prior state (and, where the
handler reads the media element, an explicit `MediaElement` snapshot) to
the next state.
-/

namespace BeePlayer

/-- A JavaScript number as the media element can report it:
`NaN`, `+Infinity`, `-Infinity`, or a finite value (modelled by a
rational). -/
inductive JSNum where
  | nan : JSNum
  | posInf : JSNum
  | negInf : JSNum
  | fin : ℚ → JSNum
deriving DecidableEq

/-- JavaScript truthiness for numbers: `0` and `NaN` are falsy,
everything else (including the infinities and negative values) is
truthy.  This is what `!player.duration` tests in the source. -/
def JSNum.isFalsy : JSNum → Bool
  | .nan => true
  | .fin q => q == 0
  | _ => false

/-- JavaScript division (`a / b`) on `JSNum`: `NaN` is absorbing,
`∞ / ∞ = NaN`, a finite value divided by an infinity is `0`, division
of a nonzero finite value by `0` gives a signed infinity and `0 / 0`
gives `NaN`; otherwise ordinary rational division. -/
def JSNum.div : JSNum → JSNum → JSNum
  | .nan, _ => .nan
  | .posInf, .nan => .nan
  | .negInf, .nan => .nan
  | .fin _, .nan => .nan
  | .posInf, .posInf => .nan
  | .posInf, .negInf => .nan
  | .negInf, .posInf => .nan
  | .negInf, .negInf => .nan
  | .posInf, .fin b => if b < 0 then .negInf else .posInf
  | .negInf, .fin b => if b < 0 then .posInf else .negInf
  | .fin _, .posInf => .fin 0
  | .fin _, .negInf => .fin 0
  | .fin a, .fin b =>
      if b = 0 then (if a = 0 then .nan else if 0 < a then .posInf else .negInf)
      else .fin (a / b)

/-- The number is a finite value in the unit interval `[0, 1]`.
`NaN` and the infinities are not. -/
def JSNum.inUnit : JSNum → Prop
  | .fin q => 0 ≤ q ∧ q ≤ 1
  | _ => False

instance (x : JSNum) : Decidable x.inUnit :=
  match x with
  | .nan => Decidable.isFalse id
  | .posInf => Decidable.isFalse id
  | .negInf => Decidable.isFalse id
  | .fin q => inferInstanceAs (Decidable (0 ≤ q ∧ q ≤ 1))

/-- The `state` object of the `UrlPlayer` component (`initialState` in
`url-player.tsx` lists exactly these fields; `src` is optional because
`handleStop` sets it to `undefined`). -/
structure PlayerState where
  src : Option String
  pip : Bool
  playing : Bool
  controls : Bool
  light : Bool
  volume : JSNum
  muted : Bool
  played : JSNum
  loaded : JSNum
  duration : JSNum
  playbackRate : JSNum
  loop : Bool
  seeking : Bool
  loadedSeconds : JSNum
  playedSeconds : JSNum
deriving DecidableEq

/-- `initialState` from the source: everything off / zero, `src` set to
the `defaultUrl` prop (whose default is the empty string). -/
def initialState (defaultUrl : String) : PlayerState :=
  { src := some defaultUrl
    pip := false
    playing := false
    controls := false
    light := false
    volume := .fin 1
    muted := false
    played := .fin 0
    loaded := .fin 0
    duration := .fin 0
    playbackRate := .fin 1
    loop := false
    seeking := false
    loadedSeconds := .fin 0
    playedSeconds := .fin 0 }

/-- Snapshot of the `HTMLVideoElement` fields the handlers read:
the ends of the buffered time ranges (the source uses
`buffered.end(buffered.length - 1)`, the last one), `duration` and
`currentTime`. -/
structure MediaElement where
  bufferedEnds : List JSNum
  duration : JSNum
  currentTime : JSNum

/-- One entry of the preset catalog. -/
structure Preset where
  key : String
  label : String
  url : String
deriving DecidableEq

/-- The static `presetVideos` list from the source (a single entry). -/
def presetVideos : List Preset :=
  [{ key := "热带雨林"
     label := "热带雨林白噪音"
     url := "https://www.youtube.com/watch?v=kHr4yag0fqA" }]

/-- `handlePlayPause`: flips `playing`. -/
def handlePlayPause (s : PlayerState) : PlayerState :=
  { s with playing := !s.playing }

/-- `handleStop`: clears `src` (sets it to `undefined`) and sets
`playing` to `false`; the spread keeps every other field. -/
def handleStop (s : PlayerState) : PlayerState :=
  { s with src := none, playing := false }

/-- `handleToggleMuted`: flips `muted`. -/
def handleToggleMuted (s : PlayerState) : PlayerState :=
  { s with muted := !s.muted }

/-- `handleToggleLoop`: flips `loop`. -/
def handleToggleLoop (s : PlayerState) : PlayerState :=
  { s with loop := !s.loop }

/-- `handleProgress`: returns unchanged when there is no player element,
when `seeking` is set, or when the buffered list is empty; otherwise
stores the end of the last buffered range in `loadedSeconds` and its
ratio to `duration` in `loaded` (no guard on `duration` here). -/
def handleProgress (player : Option MediaElement) (s : PlayerState) : PlayerState :=
  match player with
  | none => s
  | some p =>
    if s.seeking then s
    else
      match p.bufferedEnds.getLast? with
      | none => s
      | some e =>
          { s with loadedSeconds := e, loaded := JSNum.div e p.duration }

/-- `handleTimeUpdate`: returns unchanged when there is no player
element, when `seeking` is set, or when `duration` is falsy
(`0` or `NaN`); otherwise stores `currentTime` in `playedSeconds` and
`currentTime / duration` in `played`. -/
def handleTimeUpdate (player : Option MediaElement) (s : PlayerState) : PlayerState :=
  match player with
  | none => s
  | some p =>
    if s.seeking then s
    else if p.duration.isFalsy then s
    else
      { s with playedSeconds := p.currentTime
               played := JSNum.div p.currentTime p.duration }

/-- `handleEnded`: sets `playing` to the current `loop` flag. -/
def handleEnded (s : PlayerState) : PlayerState :=
  { s with playing := s.loop }

/-- `handleDurationChange`: copies the element's `duration` into the
state (unchanged when there is no element). -/
def handleDurationChange (player : Option MediaElement) (s : PlayerState) : PlayerState :=
  match player with
  | none => s
  | some p => { s with duration := p.duration }

/-- JavaScript's `String.prototype.trim`: strips leading and trailing
whitespace (executable model over the character list). -/
def jsTrim (s : String) : String :=
  ⟨((s.data.dropWhile Char.isWhitespace).reverse.dropWhile
      Char.isWhitespace).reverse⟩

/-- `handleLoadCustomUrl`: if the pending `url` text is truthy after
trimming (non-empty), stores the untrimmed text as `src`; otherwise
does nothing. -/
def handleLoadCustomUrl (url : String) (s : PlayerState) : PlayerState :=
  if jsTrim url ≠ "" then { s with src := some url } else s

/-- `handlePresetSelect`: looks the key up in `presetVideos`; when
found, sets the pending `url` text and `src` to the preset's URL;
otherwise leaves both the state and the `url` text alone.  Returns the
new `(state, url)` pair. -/
def handlePresetSelect (selectedKey : String) (s : PlayerState) (url : String) :
    PlayerState × String :=
  match presetVideos.find? (fun video => video.key == selectedKey) with
  | some selectedVideo =>
      ({ s with src := some selectedVideo.url }, selectedVideo.url)
  | none => (s, url)

/-- A media-element callback relevant to progress tracking, for stating
properties of arbitrary sequences of calls. -/
inductive MediaEvent where
  | progress (player : Option MediaElement)
  | timeUpdate (player : Option MediaElement)

/-- Apply one progress-tracking callback to the state. -/
def stepEvent (s : PlayerState) (e : MediaEvent) : PlayerState :=
  match e with
  | .progress player => handleProgress player s
  | .timeUpdate player => handleTimeUpdate player s

/-- Zero-pad a natural number to two digits. -/
def pad2 (n : Nat) : String :=
  if n < 10 then "0" ++ toString n else toString n

/-- Modelled from the spec: the `Duration` component imported by
`url-player.tsx` from `./duration` has no source file in the
repository, so this follows spec §4.3 — a pure function from seconds
(possibly `NaN` / negative) to a display string, rendering the safe
default `"00:00"` for non-finite or negative input, zero-padded
`MM:SS` under an hour and `HH:MM:SS` otherwise. -/
def formatDuration : JSNum → String
  | .fin q =>
      if q < 0 then "00:00"
      else
        let t : Nat := q.floor.toNat
        let hh := t / 3600
        let mm := (t % 3600) / 60
        let ss := t % 60
        if 0 < hh then pad2 hh ++ ":" ++ pad2 mm ++ ":" ++ pad2 ss
        else pad2 mm ++ ":" ++ pad2 ss
  | _ => "00:00"

/-! ## Theorems for the claims -/

/-- C1: `handleEnded` sets `playing` to the current value of `loop`,
regardless of the prior value of `playing`, and gives no other field a
new value. -/
theorem ended_sets_playing_to_loop (s : PlayerState) :
    (handleEnded s).playing = s.loop ∧
    (handleEnded s).src = s.src ∧
    (handleEnded s).pip = s.pip ∧
    (handleEnded s).controls = s.controls ∧
    (handleEnded s).light = s.light ∧
    (handleEnded s).volume = s.volume ∧
    (handleEnded s).muted = s.muted ∧
    (handleEnded s).played = s.played ∧
    (handleEnded s).loaded = s.loaded ∧
    (handleEnded s).duration = s.duration ∧
    (handleEnded s).playbackRate = s.playbackRate ∧
    (handleEnded s).loop = s.loop ∧
    (handleEnded s).seeking = s.seeking ∧
    (handleEnded s).loadedSeconds = s.loadedSeconds ∧
    (handleEnded s).playedSeconds = s.playedSeconds := by
  repeat' constructor

/-- C2: after `handleStop` the source is absent and `playing` is
`false`, for every prior state. -/
theorem stop_clears_src_and_playing (s : PlayerState) :
    (handleStop s).src = none ∧ (handleStop s).playing = false := by
  exact ⟨rfl, rfl⟩

/-- C3: `handleStop` changes only `src` and `playing`; every other
field keeps its prior value. -/
theorem stop_frame (s : PlayerState) :
    (handleStop s).played = s.played ∧
    (handleStop s).loaded = s.loaded ∧
    (handleStop s).playedSeconds = s.playedSeconds ∧
    (handleStop s).loadedSeconds = s.loadedSeconds ∧
    (handleStop s).duration = s.duration ∧
    (handleStop s).muted = s.muted ∧
    (handleStop s).loop = s.loop ∧
    (handleStop s).volume = s.volume ∧
    (handleStop s).seeking = s.seeking ∧
    (handleStop s).pip = s.pip ∧
    (handleStop s).controls = s.controls ∧
    (handleStop s).light = s.light ∧
    (handleStop s).playbackRate = s.playbackRate := by
  repeat' constructor

/-- While `seeking` is set, each progress-tracking callback leaves the
state exactly as it was. -/
lemma stepEvent_of_seeking (s : PlayerState) (h : s.seeking = true)
    (e : MediaEvent) : stepEvent s e = s := by
  cases e with
  | progress player =>
      cases player with
      | none => rfl
      | some p => simp [stepEvent, handleProgress, h]
  | timeUpdate player =>
      cases player with
      | none => rfl
      | some p => simp [stepEvent, handleTimeUpdate, h]

/-- C4: in any state with `seeking = true`, any sequence of
`handleProgress` / `handleTimeUpdate` calls leaves `played`, `loaded`,
`playedSeconds` and `loadedSeconds` unchanged. -/
theorem seeking_freezes_progress (s : PlayerState) (h : s.seeking = true)
    (evs : List MediaEvent) :
    (evs.foldl stepEvent s).played = s.played ∧
    (evs.foldl stepEvent s).loaded = s.loaded ∧
    (evs.foldl stepEvent s).playedSeconds = s.playedSeconds ∧
    (evs.foldl stepEvent s).loadedSeconds = s.loadedSeconds := by
  have hfix : evs.foldl stepEvent s = s := by
    induction evs with
    | nil => rfl
    | cons e rest ih =>
        simpa [List.foldl, stepEvent_of_seeking s h e] using ih
  rw [hfix]
  exact ⟨rfl, rfl, rfl, rfl⟩

/-- A seeking state and a sample event sequence, for the C4 witness. -/
def seekingState : PlayerState :=
  { initialState "" with seeking := true, played := .fin (1/2) }

/-- Sample media element for witnesses. -/
def sampleElement : MediaElement :=
  { bufferedEnds := [.fin 30], duration := .fin 120, currentTime := .fin 30 }

theorem seeking_freezes_progress_witness :
    seekingState.seeking = true ∧
    ((List.foldl stepEvent seekingState
        [.progress (some sampleElement), .timeUpdate (some sampleElement),
         .progress (some sampleElement)]).played = seekingState.played ∧
     (List.foldl stepEvent seekingState
        [.progress (some sampleElement), .timeUpdate (some sampleElement),
         .progress (some sampleElement)]).loaded = seekingState.loaded) :=
  ⟨rfl,
   (seeking_freezes_progress seekingState rfl
      [.progress (some sampleElement), .timeUpdate (some sampleElement),
       .progress (some sampleElement)]).1,
   (seeking_freezes_progress seekingState rfl
      [.progress (some sampleElement), .timeUpdate (some sampleElement),
       .progress (some sampleElement)]).2.1⟩

/-- Prior state for the C5 counterexample: the defaults (`played = 0`,
`seeking = false`). -/
def cexStateTU : PlayerState := initialState ""

/-- Media element for the C5 counterexample: the instance `p = 1`,
`d = 0` of the claim, so `currentTime = p * d = 0` and `duration = 0`. -/
def cexElementTU : MediaElement :=
  { bufferedEnds := [], duration := .fin 0, currentTime := .fin (1 * 0) }

/-- C5 counterexample: at the claim's instance `p = 1`, `d = 0` (which
satisfies `p ∈ [0,1]`, `d ≥ 0` and `seeking = false`) the handler
returns unchanged because `duration` is falsy, so `played` stays `0`
and does not become `p = 1` as the claim asserts. -/
theorem timeUpdate_claim_fails_at_zero_duration :
    (0:ℚ) ≤ 1 ∧ (1:ℚ) ≤ 1 ∧ (0:ℚ) ≤ 0 ∧ cexStateTU.seeking = false ∧
    (handleTimeUpdate (some cexElementTU) cexStateTU).played ≠ .fin 1 := by
  refine ⟨by norm_num, le_refl 1, le_refl 0, rfl, ?_⟩
  have hstep : handleTimeUpdate (some cexElementTU) cexStateTU = cexStateTU := by
    simp [handleTimeUpdate, cexStateTU, cexElementTU, initialState, JSNum.isFalsy]
  rw [hstep]
  show JSNum.fin 0 ≠ JSNum.fin 1
  simp

/-- C5 (amended): for every fraction `p ∈ [0,1]` and strictly positive
finite duration `d`, with `seeking` false, `handleTimeUpdate` on an
element reporting `currentTime = p * d` and `duration = d` yields
`played = p` (exactly, in the rational model) and
`playedSeconds = p * d`; and the handler leaves the state entirely
unchanged whenever `seeking` is true or the reported duration is falsy
(`0` or `NaN`). -/
theorem timeUpdate_fraction (s : PlayerState) (p d : ℚ)
    (hp0 : 0 ≤ p) (hp1 : p ≤ 1) (hd : 0 < d) (hs : s.seeking = false)
    (el : MediaElement) (hcur : el.currentTime = .fin (p * d))
    (hdur : el.duration = .fin d) :
    ((handleTimeUpdate (some el) s).played = .fin p ∧
     (handleTimeUpdate (some el) s).playedSeconds = .fin (p * d)) ∧
    (∀ s2 : PlayerState, ∀ el2 : MediaElement,
      s2.seeking = true ∨ el2.duration.isFalsy = true →
      handleTimeUpdate (some el2) s2 = s2) := by
  constructor
  · have hfalsy : (JSNum.fin d).isFalsy = false := by
      simp [JSNum.isFalsy, hd.ne']
    simp only [handleTimeUpdate, hs, hdur, hcur, hfalsy, Bool.false_eq_true,
      if_false]
    refine ⟨?_, trivial⟩
    show JSNum.div (.fin (p * d)) (.fin d) = .fin p
    simp only [JSNum.div]
    rw [if_neg hd.ne', mul_div_cancel_right₀ p hd.ne']
  · intro s2 el2 h
    rcases h with h | h
    · simp [handleTimeUpdate, h]
    · cases hs2 : s2.seeking <;> simp [handleTimeUpdate, hs2, h]

theorem timeUpdate_fraction_witness :
    ((0:ℚ) ≤ 1/4 ∧ (1/4:ℚ) ≤ 1 ∧ (0:ℚ) < 120 ∧
      (initialState "").seeking = false) ∧
    (handleTimeUpdate
        (some { bufferedEnds := [], duration := .fin 120,
                currentTime := .fin (1/4 * 120) })
        (initialState "")).played = .fin (1/4) :=
  ⟨⟨by norm_num, by norm_num, by norm_num, rfl⟩,
   ((timeUpdate_fraction (initialState "") (1/4) 120 (by norm_num)
      (by norm_num) (by norm_num) rfl
      { bufferedEnds := [], duration := .fin 120,
        currentTime := .fin (1/4 * 120) } rfl rfl).1).1⟩

/-- Prior state for the C6 counterexample: the defaults, whose `played`
and `loaded` are `0`, inside the unit interval. -/
def cexStateP : PlayerState := initialState ""

/-- Media element for the C6 counterexample: one buffered range ending
at `10` seconds while `duration` is still `NaN` (as the element reports
before metadata is known).  `handleProgress` has no guard on
`duration`, so it stores `10 / NaN = NaN` in `loaded`. -/
def cexElementP : MediaElement :=
  { bufferedEnds := [.fin 10], duration := .nan, currentTime := .fin 0 }

/-- C6 counterexample: starting from a state whose `loaded` is in
`[0,1]`, one `handleProgress` call with a reported `NaN` duration
drives `loaded` out of the unit interval (it becomes `NaN`). -/
theorem progress_breaks_unit_interval :
    cexStateP.loaded.inUnit ∧
    ¬ (handleProgress (some cexElementP) cexStateP).loaded.inUnit := by
  constructor
  · exact ⟨le_refl 0, by norm_num⟩
  · intro h
    have hval : (handleProgress (some cexElementP) cexStateP).loaded = .nan := by
      simp [handleProgress, cexStateP, cexElementP, initialState, JSNum.div]
    rw [hval] at h
    exact h

/-- Division of a finite value within `[0, d]` by a positive finite `d`
lands in the unit interval. -/
lemma div_fin_inUnit {c d : ℚ} (hd : 0 < d) (hc0 : 0 ≤ c) (hcd : c ≤ d) :
    (JSNum.div (.fin c) (.fin d)).inUnit := by
  simp only [JSNum.div]
  rw [if_neg hd.ne']
  exact ⟨div_nonneg hc0 hd.le, (div_le_one hd).mpr hcd⟩

/-- C6 (amended): `played` and `loaded` stay in `[0,1]` provided the
media element's reported values are well-formed — a finite positive
duration `d` with `currentTime` and the last buffered end in `[0, d]`;
every operation that does not recompute them (`handleStop`,
`handleEnded`, `handlePlayPause`, the toggles, `handleDurationChange`,
`handleLoadCustomUrl`, `handlePresetSelect`) preserves them
unconditionally. -/
theorem unit_interval_preserved (s : PlayerState) (d c b : ℚ)
    (hp : s.played.inUnit) (hl : s.loaded.inUnit)
    (hd : 0 < d) (hc0 : 0 ≤ c) (hcd : c ≤ d) (hb0 : 0 ≤ b) (hbd : b ≤ d)
    (el : MediaElement) (hdur : el.duration = .fin d)
    (hcur : el.currentTime = .fin c)
    (hlast : el.bufferedEnds.getLast? = some (.fin b)) :
    ((handleTimeUpdate (some el) s).played.inUnit ∧
     (handleTimeUpdate (some el) s).loaded.inUnit) ∧
    ((handleProgress (some el) s).played.inUnit ∧
     (handleProgress (some el) s).loaded.inUnit) ∧
    ((handleStop s).played.inUnit ∧ (handleStop s).loaded.inUnit) ∧
    ((handleEnded s).played.inUnit ∧ (handleEnded s).loaded.inUnit) ∧
    ((handlePlayPause s).played.inUnit ∧ (handlePlayPause s).loaded.inUnit) ∧
    ((handleToggleMuted s).played.inUnit ∧ (handleToggleMuted s).loaded.inUnit) ∧
    ((handleToggleLoop s).played.inUnit ∧ (handleToggleLoop s).loaded.inUnit) ∧
    ((handleDurationChange (some el) s).played.inUnit ∧
     (handleDurationChange (some el) s).loaded.inUnit) ∧
    (∀ u : String, (handleLoadCustomUrl u s).played.inUnit ∧
      (handleLoadCustomUrl u s).loaded.inUnit) ∧
    (∀ k u : String, (handlePresetSelect k s u).1.played.inUnit ∧
      (handlePresetSelect k s u).1.loaded.inUnit) := by
  refine ⟨?_, ?_, ⟨hp, hl⟩, ⟨hp, hl⟩, ⟨hp, hl⟩, ⟨hp, hl⟩, ⟨hp, hl⟩, ⟨hp, hl⟩,
    ?_, ?_⟩
  · cases hs : s.seeking with
    | false =>
        have hfalsy : (JSNum.fin d).isFalsy = false := by
          simp [JSNum.isFalsy, hd.ne']
        simp only [handleTimeUpdate, hs, hdur, hcur, hfalsy,
          Bool.false_eq_true, if_false]
        exact ⟨div_fin_inUnit hd hc0 hcd, hl⟩
    | true =>
        simp only [handleTimeUpdate, hs, if_true]
        exact ⟨hp, hl⟩
  · cases hs : s.seeking with
    | false =>
        simp only [handleProgress, hs, hdur, hlast, Bool.false_eq_true,
          if_false]
        exact ⟨hp, div_fin_inUnit hd hb0 hbd⟩
    | true =>
        simp only [handleProgress, hs, if_true]
        exact ⟨hp, hl⟩
  · intro u
    unfold handleLoadCustomUrl
    split <;> exact ⟨hp, hl⟩
  · intro k u
    unfold handlePresetSelect
    cases presetVideos.find? (fun video => video.key == k) <;> exact ⟨hp, hl⟩

theorem unit_interval_preserved_witness :
    ((initialState "").played.inUnit ∧ (initialState "").loaded.inUnit) ∧
    (handleProgress
        (some { bufferedEnds := [.fin 60], duration := .fin 120,
                currentTime := .fin 30 })
        (initialState "")).loaded.inUnit :=
  ⟨⟨⟨le_refl 0, by norm_num⟩, ⟨le_refl 0, by norm_num⟩⟩,
   ((unit_interval_preserved (initialState "") 120 30 60
      ⟨le_refl 0, by norm_num⟩ ⟨le_refl 0, by norm_num⟩
      (by norm_num) (by norm_num) (by norm_num) (by norm_num) (by norm_num)
      { bufferedEnds := [.fin 60], duration := .fin 120,
        currentTime := .fin 30 } rfl rfl rfl).2.1).2⟩

/-- C7: for a key found in the static catalog, `handlePresetSelect`
sets both the pending `url` text and `src` to exactly the catalog's URL
for that key, leaving all other state fields unchanged; for a key not
in the catalog it leaves the whole state, including `url`, unchanged. -/
theorem presetSelect_spec (s : PlayerState) (url k : String) :
    (∀ v : Preset, presetVideos.find? (fun video => video.key == k) = some v →
      handlePresetSelect k s url = ({ s with src := some v.url }, v.url)) ∧
    (presetVideos.find? (fun video => video.key == k) = none →
      handlePresetSelect k s url = (s, url)) := by
  constructor
  · intro v hv
    simp [handlePresetSelect, hv]
  · intro hnone
    simp [handlePresetSelect, hnone]

theorem presetSelect_spec_witness :
    (presetVideos.find? (fun video => video.key == "热带雨林") =
        some { key := "热带雨林", label := "热带雨林白噪音",
               url := "https://www.youtube.com/watch?v=kHr4yag0fqA" } ∧
     handlePresetSelect "热带雨林" (initialState "") "" =
       ({ initialState "" with
            src := some "https://www.youtube.com/watch?v=kHr4yag0fqA" },
        "https://www.youtube.com/watch?v=kHr4yag0fqA")) ∧
    (presetVideos.find? (fun video => video.key == "missing") = none ∧
     handlePresetSelect "missing" (initialState "") "typed" =
       (initialState "", "typed")) :=
  ⟨⟨rfl, (presetSelect_spec (initialState "") "" "热带雨林").1
      { key := "热带雨林", label := "热带雨林白噪音",
        url := "https://www.youtube.com/watch?v=kHr4yag0fqA" } rfl⟩,
   ⟨rfl, (presetSelect_spec (initialState "") "typed" "missing").2 rfl⟩⟩

/-- C8: if the pending `url` text is non-empty after trimming,
`handleLoadCustomUrl` sets `src` to that text while leaving `playing`
(and every other field) at its prior value; if the text is empty or
whitespace-only, it is a no-op. -/
theorem loadCustomUrl_spec (s : PlayerState) (url : String) :
    (jsTrim url ≠ "" →
      handleLoadCustomUrl url s = { s with src := some url } ∧
      (handleLoadCustomUrl url s).playing = s.playing) ∧
    (jsTrim url = "" → handleLoadCustomUrl url s = s) := by
  constructor
  · intro h
    have hset : handleLoadCustomUrl url s = { s with src := some url } := by
      simp [handleLoadCustomUrl, h]
    exact ⟨hset, by rw [hset]⟩
  · intro h
    simp [handleLoadCustomUrl, h]

theorem loadCustomUrl_spec_witness :
    (jsTrim "https://example.com/v.mp4" ≠ "" ∧
     handleLoadCustomUrl "https://example.com/v.mp4" (initialState "") =
       { initialState "" with src := some "https://example.com/v.mp4" }) ∧
    (jsTrim "   " = "" ∧
     handleLoadCustomUrl "   " (initialState "") = initialState "") :=
  ⟨⟨by decide,
    ((loadCustomUrl_spec (initialState "") "https://example.com/v.mp4").1
      (by decide)).1⟩,
   ⟨by decide, (loadCustomUrl_spec (initialState "") "   ").2 (by decide)⟩⟩

/-- C10: `handleLoadCustomUrl` stores the pending text exactly as
typed, surrounding whitespace included; trimming is used only for the
emptiness test, so on an input with surrounding whitespace the stored
`src` differs from the trimmed text. -/
theorem loadCustomUrl_keeps_raw_text (s : PlayerState) (url : String)
    (h : jsTrim url ≠ "") :
    (handleLoadCustomUrl url s).src = some url ∧
    (handleLoadCustomUrl " https://example.com/v.mp4 " s).src ≠
      some (jsTrim " https://example.com/v.mp4 ") := by
  constructor
  · simp [handleLoadCustomUrl, h]
  · have hws : jsTrim " https://example.com/v.mp4 " ≠ "" := by decide
    have hset : (handleLoadCustomUrl " https://example.com/v.mp4 " s).src =
        some " https://example.com/v.mp4 " := by
      simp [handleLoadCustomUrl, hws]
    rw [hset]
    intro hcontra
    have : " https://example.com/v.mp4 " = jsTrim " https://example.com/v.mp4 " :=
      Option.some.inj hcontra
    exact absurd this (by decide)

theorem loadCustomUrl_keeps_raw_text_witness :
    jsTrim " https://example.com/v.mp4 " ≠ "" ∧
    (handleLoadCustomUrl " https://example.com/v.mp4 "
        (initialState "")).src = some " https://example.com/v.mp4 " :=
  ⟨by decide,
   (loadCustomUrl_keeps_raw_text (initialState "")
      " https://example.com/v.mp4 " (by decide)).1⟩

/-- C9: the duration formatter is a total function from seconds to a
display string: `65 ↦ "01:05"`, `3661 ↦ "01:01:01"`, `0 ↦ "00:00"`, and
`NaN`, the infinities and every negative input render the safe default
`"00:00"`. -/
theorem formatDuration_spec :
    formatDuration (.fin 65) = "01:05" ∧
    formatDuration (.fin 3661) = "01:01:01" ∧
    formatDuration (.fin 0) = "00:00" ∧
    formatDuration .nan = "00:00" ∧
    formatDuration (.fin (-5)) = "00:00" ∧
    formatDuration .posInf = "00:00" ∧
    formatDuration .negInf = "00:00" ∧
    (∀ q : ℚ, q < 0 → formatDuration (.fin q) = "00:00") := by
  refine ⟨by decide, by decide, by decide, rfl, by decide, rfl, rfl, ?_⟩
  intro q hq
  show (if q < 0 then "00:00" else _) = "00:00"
  rw [if_pos hq]

theorem formatDuration_spec_witness :
    (-3 : ℚ) < 0 ∧ formatDuration (.fin (-3)) = "00:00" :=
  ⟨by norm_num, formatDuration_spec.2.2.2.2.2.2.2 (-3) (by norm_num)⟩

end BeePlayer
